import Mathlib

/-!
Verification of the Soul engine (src/sandbox/old_lpc/soul.c): a shallow
embedding of the verb registry, the clause parser ("webster"), the verb
reducer and the message combiner, together with theorems checking the
specification's claims about them.

Conventions of the embedding:
  * LPC arrays become Lean lists; LPC mappings become association lists.
  * LPC strings become Lean `String`; all string primitives used by the
    source (`explode`, `implode`, `replace` via explode/implode, `sscanf`
    containment tests) are re-implemented structurally over `List Char` so
    that every definition evaluates inside the kernel.
  * `notify_fail(msg); return 0` becomes `Except.error (.notifyFail msg)`.
    The ambiguous-prefix path, which also stores a parse continuation in
    `parsed_part`/`uncertain_part`/`unparsed_part`, becomes the structured
    `Failure.ambiguous` constructor carrying the continuation pieces (the
    final screen formatting of the candidate list, `linebreak`/`sprintf`,
    is configuration dependent in the source and is not part of a message
    any claim quotes).
  * `this_player()` becomes the explicit `actor` field of the environment;
    `get_persons()` becomes the `people` snapshot field.
  * Side channels not returned by `webster` (`brokendown_data`,
    `last_action` accumulation on success) are not modelled; `last_action`
    enters only as the prefix of `parsed_part` in a continuation.
-/

/-- Characterwise prefix test (used instead of `String.isPrefixOf` so that
everything reduces by kernel computation). -/
def isPrefixCh : List Char → List Char → Bool
  | [], _ => true
  | _ :: _, [] => false
  | a :: as, b :: bs => a = b && isPrefixCh as bs

/-- Whether `pat` occurs as a substring: the boolean meaning of the source's
`sscanf(a, "%s" ++ pat, c)` test. -/
def containsCh (pat : List Char) : List Char → Bool
  | [] => isPrefixCh pat []
  | c :: cs => isPrefixCh pat (c :: cs) || containsCh pat cs

/-- Fueled replace-all over characters; fuel `l.length` always suffices
because every step consumes at least one character. -/
def replaceChF (pat repl : List Char) : Nat → List Char → List Char
  | _, [] => []
  | 0, l => l
  | fuel + 1, c :: cs =>
    if isPrefixCh pat (c :: cs) then
      repl ++ replaceChF pat repl fuel (cs.drop (pat.length - 1))
    else
      c :: replaceChF pat repl fuel cs

/-- Fueled split on a separator (full split, keeping empty fields): the
meaning of the source's `my_explode` with its BUGGY_EXPLODE workarounds. -/
def splitChF (sep : List Char) : Nat → List Char → List (List Char)
  | _, [] => [[]]
  | 0, l => [l]
  | fuel + 1, c :: cs =>
    if !sep.isEmpty && isPrefixCh sep (c :: cs) then
      [] :: splitChF sep fuel (cs.drop (sep.length - 1))
    else
      match splitChF sep fuel cs with
      | [] => [[c]]
      | h :: tl => (c :: h) :: tl

def strStarts (s pat : String) : Bool := isPrefixCh pat.data s.data

def containsStr (s pat : String) : Bool := containsCh pat.data s.data

/-- `replace(X,Y,Z) = implode(my_explode(X,Y),Z)` from the source. -/
def replaceStr (s pat repl : String) : String :=
  ⟨replaceChF pat.data repl.data s.data.length s.data⟩

/-- `my_explode(a,b)`: full split of `a` on separator `b`. -/
def myExplode (a b : String) : List String :=
  (splitChF b.data a.data.length a.data).map (fun l => ⟨l⟩)

/-- `implode(l, sep)`. -/
def joinStr (sep : String) : List String → String
  | [] => ""
  | h :: t => t.foldl (fun acc x => acc ++ sep ++ x) h

def strDropLeft (s : String) (n : Nat) : String := ⟨s.data.drop n⟩

def strDropLast (s : String) : String := ⟨s.data.dropLast⟩

/-- The character `s[strlen(s)-1]` of the source; on the empty string the
source would be a runtime error, the model returns the default character
(matching Lean's own conventions). -/
def lastCh (s : String) : Char := s.data.getLast?.getD 'A'

def frontCh (s : String) : Char := s.data.headD 'A'

/-- `implode_nicely(dum, del)` from the source. -/
def implodeNicelyWith (del : String) : List String → String
  | [] => ""
  | [a] => a
  | [a, b] => a ++ " " ++ del ++ " " ++ b
  | l => joinStr ", " l.dropLast ++ " " ++ del ++ " " ++ l.getLastD ""

/-- `implode_nicely(dum)` with the default delimiter "and". -/
def implodeNicely (l : List String) : String := implodeNicelyWith "and" l

/-- `SUB_ARRAY(X,Y)`: LPC array subtraction, removing every occurrence of
every element of `y` from `x`. -/
def subArray {α : Type} [DecidableEq α] (x y : List α) : List α :=
  x.filter (fun a => !(decide (a ∈ y)))

/-- Keep-first deduplication (the key set of an LPC mapping built by
`mkmapping`). -/
def dedupFirst : List String → List String :=
  go []
where
  go (seen : List String) : List String → List String
    | [] => []
    | x :: xs => if x ∈ seen then go seen xs else x :: go (x :: seen) xs

/-- A person present in the room: the data Soul reads from the external
world model (`NAME`, `CAP_NAME`, `OBJECTIVE`, `POSSESSIVE`, `PRONOUN`),
plus an identity tag so that distinct persons never compare equal. -/
structure Person where
  pid : Nat
  name : String
  capName : String
  objective : String
  possessive : String
  pronoun : String
deriving DecidableEq, Repr

/-- The verb shape codes SIMP..FULL of the source. -/
inductive Shape where
  | SIMP | DEFA | DEUX | PERS | QUAD | PREV | SHRT | PHYS | FULL
deriving DecidableEq, Repr

/-- One verb table entry `({shape, defaults, data...})`: `defaults` is `0`
or an array of up-to-three optional entries (default adverb, default
message, default body part); `data` is the remaining strings
`verbdata[2..]` (templates / prepositions, depending on the shape). -/
structure VerbData where
  shape : Shape
  defaults : Option (List (Option String))
  data : List String
deriving DecidableEq, Repr

/-- One reduced clause `({who, a, b, b, a, a, a})`: the resolved target
list plus the six perspective strings `entry[1..6]`. -/
structure Feel where
  who : List Person
  texts : List String
deriving DecidableEq, Repr

/-- A structured parse failure. `notifyFail` carries the exact
`notify_fail` message of the source; `ambiguous` carries the error lead
line, the matching candidates and the continuation triple
(`parsed_part`, `uncertain_part`, `unparsed_part`). -/
inductive Failure where
  | notifyFail (msg : String)
  | ambiguous (errm : String) (cands : List String)
      (parsedPart uncertainPart unparsedPart : String)
deriving DecidableEq, Repr

deriving instance DecidableEq for Except

/-- `needsPerson a`: the condition of the source's empty-target check in
`reduce_verb` (`sscanf(a,"%s\nWHO",c) || ... "%s\nOBJ"`). -/
def needsPerson (a : String) : Bool :=
  containsStr a "\nWHO" || containsStr a "\nPOSS" ||
  containsStr a "\nTHEIR" || containsStr a "\nOBJ"

/-- The `how` string computed inside `reduce_verb`:
`implode_nicely(SUB_ARRAY(adverb,({""})))`. -/
def howString (adverb : List String) : String :=
  implodeNicely (subArray adverb [""])

/-- The common tail of the SIMP/DEFA/PREV/PHYS/SHRT/PERS cases of
`reduce_verb`, applied to the template `a0` those cases selected. -/
def simpTail (verb : String) (vd : VerbData) (who : List Person)
    (howStr whereStr mess msg : String) (a0 : String) :
    Except Failure (List Feel) :=
  let a1 :=
    if who ≠ [] ∧ vd.data.length > 1 then
      replaceStr a0 " \nAT" (vd.data.getD 1 "" ++ " \nWHO")
    else
      replaceStr a0 " \nAT" ""
  if who = [] ∧ needsPerson a1 then
    .error (.notifyFail ("Need person for verb " ++ verb ++ ".\n"))
  else
    let a2 :=
      if howStr = "" then replaceStr a1 " \nHOW" ""
      else replaceStr a1 " \nHOW" (" " ++ howStr)
    let a3 :=
      replaceStr (replaceStr (replaceStr a2 " \nWHERE" whereStr)
        " \nWHAT" mess) " \nMSG" msg
    let aF := replaceStr a3 "$" ""
    let bF := replaceStr a3 "$" "s"
    .ok [⟨who, [aF, bF, bF, aF, aF, aF]⟩]

/-- The shared replacement pipeline of the DEUX and QUAD cases. -/
def deuxTail (who : List Person) (howStr whereStr mess msg : String)
    (a0 b0 : String) : List Feel :=
  let a1 := replaceStr a0 " \nWHERE" whereStr
  let b1 := replaceStr b0 " \nWHERE" whereStr
  let a2 := replaceStr (replaceStr a1 " \nWHAT" mess) " \nMSG" msg
  let b2 := replaceStr (replaceStr b1 " \nWHAT" mess) " \nMSG" msg
  let a3 :=
    if howStr = "" then replaceStr a2 " \nHOW" ""
    else replaceStr a2 " \nHOW" (" " ++ howStr)
  let b3 :=
    if howStr = "" then replaceStr b2 " \nHOW" ""
    else replaceStr b2 " \nHOW" (" " ++ howStr)
  [⟨who, [a3, b3, b3, a3, a3, a3]⟩]

/-- `reduce_verb` from the source (array verb data only: the
string/object dispatch to an external `reduce_verb` is outside this core).
Turns one closed clause into its perspective strings, applying the
defaults of the verb definition to slots the clause left empty. -/
def reduce_verb (verb : String) (vd : VerbData) (who : List Person)
    (adverb0 : List String) (mess0 : String) (body0 : List String) :
    Except Failure (List Feel) :=
  let adverb :=
    match vd.defaults with
    | some (some a0 :: _) => if adverb0 = [] then [a0] else adverb0
    | _ => adverb0
  let messMsg : String × Option String :=
    if mess0 = "" then
      match vd.defaults with
      | some ds =>
        match ds.getD 1 none with
        | some m =>
          if frontCh m = '\'' then
            (" " ++ strDropLeft m 1, some (" " ++ strDropLeft m 1))
          else (m, none)
        | none => ("", none)
      | none => ("", none)
    else (mess0, none)
  let body :=
    match vd.defaults with
    | some ds =>
      match ds.getD 2 none with
      | some b0 => if body0 = [] then [b0] else body0
      | none => body0
    | none => body0
  let mess1 := messMsg.1
  let mess :=
    if mess1 = "" then "" else " " ++ mess1
  let msg :=
    if mess1 = "" then ""
    else match messMsg.2 with
      | some m => m
      | none => " '" ++ mess1 ++ "'"
  let whereStr := if body = [] then "" else " " ++ implodeNicely body
  let howStr := howString adverb
  match vd.shape with
  | .DEFA => simpTail verb vd who howStr whereStr mess msg
      (" " ++ verb ++ "$ \nHOW \nAT")
  | .PREV => simpTail verb vd who howStr whereStr mess msg
      (" " ++ verb ++ "$" ++ vd.data.getD 0 "" ++ " \nWHO \nHOW")
  | .PHYS => simpTail verb vd who howStr whereStr mess msg
      (" " ++ verb ++ "$" ++ vd.data.getD 0 "" ++ " \nWHO \nHOW \nWHERE")
  | .SHRT => simpTail verb vd who howStr whereStr mess msg
      (" " ++ verb ++ "$" ++ vd.data.getD 0 "" ++ " \nHOW")
  | .PERS => simpTail verb vd who howStr whereStr mess msg
      (if who ≠ [] then vd.data.getD 1 "" else vd.data.getD 0 "")
  | .SIMP => simpTail verb vd who howStr whereStr mess msg
      (vd.data.getD 0 "")
  | .DEUX =>
    let a0 := vd.data.getD 0 ""
    if who = [] ∧ needsPerson a0 then
      .error (.notifyFail ("Need person for verb " ++ verb ++ ".\n"))
    else
      .ok (deuxTail who howStr whereStr mess msg a0 (vd.data.getD 1 ""))
  | .QUAD =>
    if who = [] then
      .ok (deuxTail who howStr whereStr mess msg
        (vd.data.getD 0 "") (vd.data.getD 1 ""))
    else
      .ok (deuxTail who howStr whereStr mess msg
        (vd.data.getD 2 "") (vd.data.getD 3 ""))
  | .FULL =>
    let aa := if who = [] then vd.data.take 6 else (vd.data.drop 6).take 6
    let aa1 := aa.map (fun s =>
      replaceStr (replaceStr (replaceStr s " \nWHERE" whereStr)
        " \nWHAT" mess) " \nMSG" msg)
    let aa2 := aa1.map (fun s =>
      if howStr = "" then replaceStr s " \nHOW" ""
      else replaceStr s " \nHOW" (" " ++ howStr))
    .ok [⟨who, aa2⟩]

/-- A slice of the base verb table (split for elaboration performance). -/
def get_verbs_a : List (String × VerbData) := [
  ("flex", ⟨.DEUX, none, [" flex \nYOUR muscles \nHOW", " flexes \nYOUR muscles \nHOW"]⟩),
  ("snort", ⟨.SIMP, none, [" snort$ \nHOW \nAT", " at"]⟩),
  ("pant", ⟨.SIMP, some [some "heavily"], [" pant$ \nHOW \nAT", " at"]⟩),
  ("hmm", ⟨.SIMP, none, [" hmm$ \nHOW \nAT", " at"]⟩),
  ("ack", ⟨.SIMP, none, [" ack$ \nHOW \nAT", " at"]⟩),
  ("guffaw", ⟨.SIMP, none, [" guffaw$ \nHOW \nAT", " at"]⟩),
  ("raise", ⟨.SIMP, none, [" \nHOW raise$ an eyebrow \nAT", " at"]⟩),
  ("snap", ⟨.SIMP, none, [" snap$ \nYOUR fingers \nAT", " at"]⟩),
  ("lust", ⟨.DEFA, none, ["", " for"]⟩),
  ("burp", ⟨.DEFA, some [some "rudely"], ["", " at"]⟩),
  ("wink", ⟨.DEFA, some [some "suggestively"], ["", " at"]⟩),
  ("smile", ⟨.DEFA, some [some "happily"], ["", " at"]⟩),
  ("yawn", ⟨.DEFA, none, ["", " at"]⟩),
  ("swoon", ⟨.DEFA, some [some "romantically"], ["", " at"]⟩),
  ("sneer", ⟨.DEFA, some [some "disdainfully"], ["", " at"]⟩),
  ("beam", ⟨.DEFA, none, ["", " at"]⟩),
  ("point", ⟨.DEFA, none, ["", " at"]⟩),
  ("grin", ⟨.DEFA, some [some "evilly"], ["", " at"]⟩),
  ("laugh", ⟨.DEFA, none, ["", " at"]⟩),
  ("nod", ⟨.DEFA, some [some "solemnly"], ["", " at"]⟩),
  ("wave", ⟨.DEFA, some [some "happily"], ["", " at"]⟩),
  ("cackle", ⟨.DEFA, some [some "gleefully"], ["", " at"]⟩),
  ("chuckle", ⟨.DEFA, none, ["", " at"]⟩),
  ("bow", ⟨.DEFA, none, ["", " to"]⟩),
  ("surrender", ⟨.DEFA, none, ["", " to"]⟩),
  ("capitulate", ⟨.DEFA, some [some "unconditionally"], ["", " to"]⟩),
  ("glare", ⟨.DEFA, some [some "stonily"], ["", " at"]⟩),
  ("giggle", ⟨.DEFA, some [some "merrily"], ["", " at"]⟩),
  ("groan", ⟨.DEFA, none, ["", " at"]⟩),
  ("grunt", ⟨.DEFA, none, ["", " at"]⟩),
  ("growl", ⟨.DEFA, none, ["", " at"]⟩),
  ("breathe", ⟨.DEFA, some [some "heavily"], ["", " at"]⟩),
  ("argh", ⟨.DEFA, none, ["", " at"]⟩),
  ("scowl", ⟨.DEFA, some [some "darkly"], ["", " at"]⟩),
  ("snarl", ⟨.DEFA, none, ["", " at"]⟩),
  ("recoil", ⟨.DEFA, some [some "with fear"], ["", " from"]⟩),
  ("moan", ⟨.DEFA, none, ["", " at"]⟩),
  ("howl", ⟨.DEFA, some [some "in pain"], ["", " at"]⟩),
  ("puke", ⟨.DEFA, none, ["", " on"]⟩),
  ("drool", ⟨.DEFA, none, ["", " on"]⟩),
  ("sneeze", ⟨.DEFA, some [some "loudly"], ["", " at"]⟩),
  ("spit", ⟨.DEFA, none, ["", " on"]⟩),
  ("stare", ⟨.DEFA, none, ["", " at"]⟩),
  ("whistle", ⟨.DEFA, some [some "appreciatively"], ["", " at"]⟩),
  ("applaud", ⟨.DEFA, none, ["", ""]⟩)]

/-- A slice of the base verb table (split for elaboration performance). -/
def get_verbs_b : List (String × VerbData) := [
  ("leer", ⟨.DEFA, none, ["", " at"]⟩),
  ("agree", ⟨.DEFA, none, ["", " with"]⟩),
  ("believe", ⟨.PERS, none, [" believe$ in \nMYself \nHOW", " believe$ \nWHO \nHOW"]⟩),
  ("understand", ⟨.PERS, some [some "now"], [" understand$ \nHOW", " understand$ \nWHO \nHOW"]⟩),
  ("disagree", ⟨.DEFA, none, ["", " with"]⟩),
  ("fart", ⟨.DEFA, none, ["", " at"]⟩),
  ("dance", ⟨.DEFA, none, ["", " with"]⟩),
  ("flirt", ⟨.DEFA, none, ["", " with"]⟩),
  ("meow", ⟨.DEFA, none, ["", " at"]⟩),
  ("bark", ⟨.DEFA, none, ["", " at"]⟩),
  ("ogle", ⟨.PREV, none, [""]⟩),
  ("pet", ⟨.SIMP, none, [" pet$ \nWHO \nHOW \nWHERE"]⟩),
  ("barf", ⟨.DEFA, none, ["", " on"]⟩),
  ("purr", ⟨.DEFA, none, ["", " at"]⟩),
  ("curtsey", ⟨.DEFA, none, ["", " before"]⟩),
  ("puzzle", ⟨.SIMP, none, [" look$ \nHOW puzzled \nAT", " at"]⟩),
  ("grovel", ⟨.DEFA, none, ["", " before"]⟩),
  ("listen", ⟨.DEFA, none, ["", " to"]⟩),
  ("tongue", ⟨.SIMP, none, [" stick$ \nYOUR tongue out \nHOW \nAT", " at"]⟩),
  ("apologize", ⟨.DEFA, none, ["", " to"]⟩),
  ("complain", ⟨.DEFA, none, ["", " about"]⟩),
  ("rotate", ⟨.PERS, none, [" rotate$ \nHOW", " rotate$ \nWHO \nHOW"]⟩),
  ("excuse", ⟨.PERS, none, [" \nHOW excuse$ \nMYself", " \nHOW excuse$ \nMYself to \nWHO"]⟩),
  ("beg", ⟨.PERS, none, [" beg$ \nHOW", " beg$ \nWHO for mercy \nHOW"]⟩),
  ("fear", ⟨.PERS, none, [" shiver$ \nHOW with fear", " fear$ \nWHO \nHOW"]⟩),
  ("headshake", ⟨.SIMP, none, [" shake$ \nYOUR head \nAT \nHOW", " at"]⟩),
  ("shake", ⟨.SIMP, some [some "like a bowlful of jello"], [" shake$ \nAT \nHOW", ""]⟩),
  ("grimace", ⟨.SIMP, none, [" \nHOW make$ an awful face \nAT", " at"]⟩),
  ("stomp", ⟨.PERS, none, [" stomp$ \nYOUR foot \nHOW", " stomp$ on \nPOSS foot \nHOW"]⟩),
  ("snigger", ⟨.DEFA, some [some "jeeringly"], ["", " at"]⟩),
  ("watch", ⟨.QUAD, some [some "carefully"],
    [" watch the surroundings \nHOW", " watches the surroundings \nHOW",
     " watch \nWHO \nHOW", " watches \nWHO \nHOW"]⟩),
  ("scratch", ⟨.QUAD, some [none, none, some "on the head"],
    [" scratch \nMYself \nHOW \nWHERE", " scratches \nMYself \nHOW \nWHERE",
     " scratch \nWHO \nHOW \nWHERE", " scratches \nWHO \nHOW \nWHERE"]⟩),
  ("tap", ⟨.PERS, some [some "impatiently", none, some "on the shoulder"],
    [" tap$ \nYOUR foot \nHOW", " tap$ \nWHO \nWHERE"]⟩),
  ("wobble", ⟨.SIMP, none, [" wobble$ \nAT \nHOW", ""]⟩),
  ("yodel", ⟨.SIMP, none, [" yodel$ a merry tune \nHOW", ""]⟩),
  ("curse", ⟨.PERS, none, [" curse$ \nWHAT \nHOW", " curse$ \nWHO \nHOW"]⟩),
  ("swear", ⟨.SIMP, none, [" swear$ \nWHAT \nAT \nHOW", " before"]⟩),
  ("criticize", ⟨.PERS, none, [" criticize$ \nWHAT \nHOW", " criticize$ \nWHO \nHOW"]⟩),
  ("lie", ⟨.PERS, none, [" lie$ \nMSG \nHOW", " lie$ to \nWHO \nHOW"]⟩),
  ("mutter", ⟨.PERS, none, [" mutter$ \nMSG \nHOW", " mutter$ to \nWHO \nHOW"]⟩),
  ("say", ⟨.SIMP, some [none, some "'nothing"], [" \nHOW say$ \nMSG \nAT", " to"]⟩),
  ("babble", ⟨.SIMP, some [some "incoherently", some "'something"],
    [" babble$ \nMSG \nHOW \nAT", " to"]⟩),
  ("chant", ⟨.SIMP, some [none, some "Hare Krishna Krishna Hare Hare"],
    [" \nHOW chant$: \nWHAT", ""]⟩),
  ("sing", ⟨.SIMP, none, [" sing$ \nWHAT \nHOW \nAT", " to"]⟩),
  ("go", ⟨.DEUX, some [none, some "ah"], [" go \nMSG \nHOW", " goes \nMSG \nHOW"]⟩)]

/-- A slice of the base verb table (split for elaboration performance). -/
def get_verbs_c : List (String × VerbData) := [
  ("hiss", ⟨.QUAD, none,
    [" hiss \nMSG \nHOW", " hisses \nMSG \nHOW",
     " hiss \nMSG to \nWHO \nHOW", " hisses \nMSG to \nWHO \nHOW"]⟩),
  ("exclaim", ⟨.SIMP, none, [" \nHOW exclaim$ \nAT: \nWHAT!", ""]⟩),
  ("quote", ⟨.SIMP, none, [" \nHOW quote$ \nAT \nMSG", " to"]⟩),
  ("ask", ⟨.SIMP, none, [" \nHOW ask$ \nAT: \nWHAT?", ""]⟩),
  ("mumble", ⟨.SIMP, none, [" mumble$ \nMSG \nHOW \nAT", " to"]⟩),
  ("murmur", ⟨.SIMP, none, [" murmur$ \nMSG \nHOW \nAT", " to"]⟩),
  ("scream", ⟨.SIMP, some [some "loudly"], [" scream$ \nMSG \nHOW \nAT", " at"]⟩),
  ("yell", ⟨.SIMP, some [some "in a high pitched voice"], [" yell$ \nMSG \nHOW \nAT", " at"]⟩),
  ("utter", ⟨.SIMP, some [], [" \nHOW utter$ \nMSG \nAT", " to"]⟩),
  ("hide", ⟨.SIMP, none, [" hide$ \nHOW behind \nWHO"]⟩),
  ("finger", ⟨.SIMP, none, [" give$ \nWHO the finger"]⟩),
  ("mercy", ⟨.SIMP, none, [" beg$ \nWHO for mercy"]⟩),
  ("gripe", ⟨.PREV, none, [" to"]⟩),
  ("peer", ⟨.PREV, none, [" at"]⟩),
  ("remember", ⟨.SIMP, none, [" remember$ \nAT \nHOW", ""]⟩),
  ("surprise", ⟨.PREV, none, [""]⟩),
  ("pounce", ⟨.PHYS, some [some "playfully"], [""]⟩),
  ("bite", ⟨.PERS, none, [" \nHOW bite$ \nYOUR lip", " bite$ \nWHO \nHOW \nWHERE"]⟩),
  ("lick", ⟨.SIMP, none, [" lick$ \nWHO \nHOW \nWHERE"]⟩),
  ("caper", ⟨.PERS, some [some "merrily"], [" caper$ \nHOW about", " caper$ around \nWHO \nHOW"]⟩),
  ("beep", ⟨.PERS, some [some "triumphantly", none, some "on the nose"],
    [" \nHOW beep$ \nMYself \nWHERE", " \nHOW beep$ \nWHO \nWHERE"]⟩),
  ("blink", ⟨.PERS, none, [" blink$ \nHOW", " blink$ \nHOW at \nWHO"]⟩),
  ("bonk", ⟨.PHYS, some [none, none, some "on the head"], [""]⟩),
  ("bop", ⟨.PHYS, some [none, none, some "on the head"], [""]⟩),
  ("stroke", ⟨.PHYS, some [none, none, some "on the cheek"], [""]⟩),
  ("hold", ⟨.PHYS, some [none, none, some "in \nYOUR arms"], [""]⟩),
  ("embrace", ⟨.PHYS, some [none, none, some "in \nYOUR arms"], [""]⟩),
  ("handshake", ⟨.SIMP, none, [" shake$ hands with \nWHO", ""]⟩),
  ("tickle", ⟨.PREV, none, [""]⟩),
  ("worship", ⟨.PREV, none, [""]⟩),
  ("admire", ⟨.PREV, none, [""]⟩),
  ("mock", ⟨.PREV, none, [""]⟩),
  ("tease", ⟨.PREV, none, [""]⟩),
  ("taunt", ⟨.PREV, none, [""]⟩),
  ("strangle", ⟨.PREV, none, [""]⟩),
  ("hate", ⟨.PREV, none, [""]⟩),
  ("fondle", ⟨.PREV, none, [""]⟩),
  ("squeeze", ⟨.PREV, some [some "fondly"], [""]⟩),
  ("comfort", ⟨.PREV, none, [""]⟩),
  ("nudge", ⟨.PHYS, some [some "suggestively"], [""]⟩),
  ("slap", ⟨.PHYS, some [none, none, some "in the face"], [""]⟩),
  ("hit", ⟨.PHYS, some [none, none, some "in the face"], [""]⟩),
  ("kick", ⟨.PHYS, some [some "hard"], [""]⟩),
  ("tackle", ⟨.SIMP, none, [" tackle$ \nWHO \nHOW", ""]⟩),
  ("spank", ⟨.PHYS, some [none, none, some "on the butt"], [""]⟩)]

/-- A slice of the base verb table (split for elaboration performance). -/
def get_verbs_d : List (String × VerbData) := [
  ("pat", ⟨.PHYS, some [none, none, some "on the head"], [""]⟩),
  ("punch", ⟨.DEUX, some [none, none, some "in the eye"],
    [" punch \nWHO \nHOW \nWHERE", " punches \nWHO \nHOW \nWHERE"]⟩),
  ("hug", ⟨.PREV, none, [""]⟩),
  ("want", ⟨.PREV, none, [""]⟩),
  ("pinch", ⟨.DEUX, none, [" pinch \nWHO \nHOW \nWHERE", " pinches \nWHO \nHOW \nWHERE"]⟩),
  ("kiss", ⟨.DEUX, none, [" kiss \nWHO \nHOW \nWHERE", " kisses \nWHO \nHOW \nWHERE"]⟩),
  ("caress", ⟨.DEUX, some [none, none, some "on the cheek"],
    [" caress \nWHO \nHOW \nWHERE", " caresses \nWHO \nHOW \nWHERE"]⟩),
  ("smooch", ⟨.DEUX, none, [" smooch \nWHO \nHOW", " smooches \nWHO \nHOW"]⟩),
  ("envy", ⟨.DEUX, none, [" envy \nWHO \nHOW", " envies \nWHO \nHOW"]⟩),
  ("touch", ⟨.DEUX, none, [" touch \nWHO \nHOW \nWHERE", " touches \nWHO \nHOW \nWHERE"]⟩),
  ("knee", ⟨.PHYS, some [none, none, some "where it hurts"], [""]⟩),
  ("love", ⟨.PREV, none, [""]⟩),
  ("adore", ⟨.PREV, none, [""]⟩),
  ("grope", ⟨.PREV, none, [""]⟩),
  ("poke", ⟨.PHYS, some [none, none, some "in the ribs"], [""]⟩),
  ("snuggle", ⟨.PREV, none, [""]⟩),
  ("kneel", ⟨.SIMP, none, [" \nHOW fall$ on \nYOUR knees \nAT", " in front of"]⟩),
  ("trust", ⟨.PREV, none, [""]⟩),
  ("like", ⟨.PREV, none, [""]⟩),
  ("greet", ⟨.PREV, none, [""]⟩),
  ("welcome", ⟨.PREV, none, [""]⟩),
  ("thank", ⟨.PREV, none, [""]⟩),
  ("cuddle", ⟨.PREV, none, [""]⟩),
  ("salute", ⟨.PREV, none, [""]⟩),
  ("french", ⟨.SIMP, none, [" give$ \nWHO a REAL kiss, it seems to last forever"]⟩),
  ("nibble", ⟨.SIMP, none, [" nibble$ \nHOW on \nPOSS ear"]⟩),
  ("ruffle", ⟨.SIMP, none, [" ruffle$ \nPOSS hair \nHOW"]⟩),
  ("ignore", ⟨.PREV, none, [""]⟩),
  ("forgive", ⟨.PREV, none, [""]⟩),
  ("congratulate", ⟨.PREV, none, [""]⟩),
  ("ayt", ⟨.SIMP, none, [" wave$ \nYOUR hand in front of \nPOSS face, \nIS \nSUBJ \nHOW there?"]⟩),
  ("roll", ⟨.SIMP, some [some "to the ceiling"], [" roll$ \nYOUR eyes \nHOW"]⟩),
  ("boggle", ⟨.SIMP, none, [" boggle$ \nHOW at the concept"]⟩),
  ("cheer", ⟨.SHRT, some [some "enthusiastically"], [""]⟩),
  ("twiddle", ⟨.SIMP, none, [" twiddle$ \nYOUR thumbs \nHOW"]⟩),
  ("wiggle", ⟨.SIMP, none, [" wiggle$ \nYOUR bottom \nAT \nHOW", " at"]⟩),
  ("wrinkle", ⟨.SIMP, none, [" wrinkle$ \nYOUR nose \nAT \nHOW", " at"]⟩),
  ("thumb", ⟨.SIMP, none, [" \nHOW suck$ \nYOUR thumb"]⟩),
  ("flip", ⟨.SIMP, none, [" flip$ \nHOW head over heels"]⟩),
  ("cry", ⟨.DEUX, none, [" cry \nHOW", " cries \nHOW"]⟩),
  ("ah", ⟨.DEUX, none, [" go 'ah' \nHOW", " goes 'ah' \nHOW"]⟩),
  ("clear", ⟨.SIMP, none, [" clear$ \nYOUR throat \nHOW"]⟩),
  ("sob", ⟨.SHRT, none, [""]⟩),
  ("lag", ⟨.SHRT, some [some "helplessly"], [""]⟩),
  ("whine", ⟨.SHRT, none, [""]⟩)]

/-- A slice of the base verb table (split for elaboration performance). -/
def get_verbs_e : List (String × VerbData) := [
  ("cringe", ⟨.SIMP, some [some "in terror"], [" cringe$ \nHOW"]⟩),
  ("sweat", ⟨.SHRT, none, [""]⟩),
  ("gurgle", ⟨.SHRT, none, [""]⟩),
  ("grumble", ⟨.SHRT, none, [""]⟩),
  ("panic", ⟨.SHRT, none, [""]⟩),
  ("pace", ⟨.SIMP, some [some "impatiently"], [" start$ pacing \nHOW"]⟩),
  ("pale", ⟨.SIMP, none, [" turn$ white as ashes \nHOW"]⟩),
  ("die", ⟨.DEUX, none, [" fall \nHOW down and play dead", " falls \nHOW to the ground, dead"]⟩),
  ("sleep", ⟨.DEUX, some [some "soundly"], [" fall asleep \nHOW", " falls asleep \nHOW"]⟩),
  ("stumble", ⟨.SHRT, none, [""]⟩),
  ("bounce", ⟨.SHRT, none, [""]⟩),
  ("sulk", ⟨.SHRT, some [some "in the corner"], [""]⟩),
  ("strut", ⟨.SHRT, some [some "proudly"], [""]⟩),
  ("sniff", ⟨.SHRT, none, [""]⟩),
  ("snivel", ⟨.SHRT, some [some "pathetically"], [""]⟩),
  ("snore", ⟨.SHRT, none, [""]⟩),
  ("clue", ⟨.SIMP, none, [" need$ a clue \nHOW"]⟩),
  ("stupid", ⟨.SIMP, none, [" look$ \nHOW stupid"]⟩),
  ("bored", ⟨.SIMP, none, [" look$ \nHOW bored"]⟩),
  ("snicker", ⟨.SHRT, none, [""]⟩),
  ("smirk", ⟨.SHRT, none, [""]⟩),
  ("jump", ⟨.SIMP, some [some "up and down in aggravation"], [" jump$ \nHOW"]⟩),
  ("squint", ⟨.SHRT, none, [""]⟩),
  ("huff", ⟨.SHRT, none, [""]⟩),
  ("puff", ⟨.SHRT, none, [""]⟩),
  ("fume", ⟨.SHRT, none, [""]⟩),
  ("steam", ⟨.SHRT, none, [""]⟩),
  ("choke", ⟨.SHRT, none, [""]⟩),
  ("faint", ⟨.SHRT, none, [""]⟩),
  ("shrug", ⟨.SHRT, none, [""]⟩),
  ("pout", ⟨.SHRT, none, [""]⟩),
  ("hiccup", ⟨.SHRT, none, [""]⟩),
  ("frown", ⟨.SHRT, none, [""]⟩),
  ("gasp", ⟨.SHRT, some [some "in astonishment"], [""]⟩),
  ("think", ⟨.SHRT, some [some "carefully"], [""]⟩),
  ("ponder", ⟨.SHRT, some [some "over some problem"], [""]⟩),
  ("wonder", ⟨.DEFA, none, ["", " at"]⟩),
  ("clap", ⟨.SHRT, none, [""]⟩),
  ("sigh", ⟨.SHRT, none, [""]⟩),
  ("cough", ⟨.SHRT, some [some "noisily"], [""]⟩),
  ("shiver", ⟨.SHRT, some [some "from the cold"], [""]⟩),
  ("tremble", ⟨.SHRT, none, [""]⟩),
  ("twitch", ⟨.DEUX, none, [" twitch \nHOW", " twitches \nHOW"]⟩),
  ("bitch", ⟨.DEUX, none, [" bitch \nHOW", " bitches \nHOW"]⟩),
  ("blush", ⟨.DEUX, none, [" blush \nHOW", " blushes \nHOW"]⟩)]

/-- The static base verb table `get_verbs()` of the source, transcribed
entry by entry (`0` defaults become `none`; a defaults array becomes
`some` of its optional entries). It is split into slices only to keep
elaboration fast; the concatenation below is the table in source order. -/
def get_verbs : List (String × VerbData) :=
  get_verbs_a ++ get_verbs_b ++ get_verbs_c ++ get_verbs_d ++ get_verbs_e

/-- The intensifier table `get_how()` of the source. -/
def get_how : List String :=
  ["very", "quite", "barely", "extremely", "somewhat", "almost"]

/-- The body-part table `get_bodydata()` of the source. -/
def get_bodydata : List (String × String) := [
  ("hand", "on the hand"), ("forehead", "on the forehead"),
  ("head", "on the head"), ("face", "in the face"),
  ("hurts", "where it hurts"), ("eye", "in the eye"),
  ("ear", "on the ear"), ("stomach", "in the stomach"),
  ("butt", "on the butt"), ("behind", "on the behind"),
  ("leg", "on the leg"), ("foot", "on the foot"),
  ("toe", "on the right toe"), ("nose", "on the nose"),
  ("neck", "in the neck"), ("back", "on the back"),
  ("arm", "on the arm"), ("chest", "on the chest"),
  ("cheek", "on the cheek"), ("side", "in the side"),
  ("everywhere", "everywhere"), ("shoulder", "on the shoulder")]

/-- The `WHO(o, who)` helper of the source, with `this_player()` passed
explicitly as `actor` and the rendering recipient as `pov` (`0` becomes
`none`). -/
def WHOproj (actor : Person) (pov : Option Person) (o : Person) : String :=
  if pov = some o then
    if o = actor then "yourself" else "you"
  else
    if o = actor then o.objective ++ "self" else o.capName

/-- The `POSS(o, who)` helper of the source. -/
def POSSproj (actor : Person) (pov : Option Person) (o : Person) : String :=
  if pov = some o then
    if o = actor then "your own" else "your"
  else
    if o = actor then o.possessive ++ " own"
    else
      let s := o.capName
      if lastCh s = 's' then s ++ "'" else s ++ "'s"

/-- One `\n`-separated segment of a template, rendered by the marker test
chain of `gloerp` (each `sscanf(s[e], "XXX%s", b)` becomes a prefix test,
in the source's order). The branches that index `t[0]` would be runtime
errors in the source when `t` is empty; the model reads `t.headD actor`
there. -/
def gloerpSeg (actor : Person) (t : List Person) (pov : Option Person)
    (prev : Bool) (seg : String) : String :=
  let t0 := t.headD actor
  let povMem := decide (∃ p, pov = some p ∧ p ∈ t)
  let theirStr :=
    if t.length > 1 then (if povMem then "your" else "their")
    else if pov = some t0 then "your" else t0.possessive
  let objStr :=
    if t.length > 1 then (if povMem then "all of you" else "them")
    else if pov = some t0 then
      (if pov = some actor then "yourself" else "you")
    else
      (if t0 = actor then actor.objective ++ "self" else t0.objective)
  let subjStr :=
    if t.length > 1 then (if povMem then "you" else "they")
    else if pov = some t0 then "you" else t0.pronoun
  let isStr :=
    if povMem then "are" else if t.length ≤ 1 then "is" else "are"
  if !prev && strStarts seg "WHO" then
    implodeNicely (t.map (WHOproj actor pov)) ++ strDropLeft seg 3
  else if !prev && strStarts seg "POSS" then
    implodeNicely (t.map (POSSproj actor pov)) ++ strDropLeft seg 4
  else if strStarts seg "YOUR" then
    (if pov = some actor then "your" else actor.possessive) ++ strDropLeft seg 4
  else if strStarts seg "YOU" then
    (if pov = some actor then "you" else actor.objective) ++ strDropLeft seg 3
  else if strStarts seg "MY" then
    (if pov = some actor then "your" else actor.objective) ++ strDropLeft seg 2
  else if strStarts seg "PRON" then
    (if pov = some actor then "you" else actor.pronoun) ++ strDropLeft seg 4
  else if strStarts seg "THEIR" then theirStr ++ strDropLeft seg 5
  else if prev && strStarts seg "POSS" then theirStr ++ strDropLeft seg 4
  else if strStarts seg "OBJ" then objStr ++ strDropLeft seg 3
  else if prev && strStarts seg "WHO" then objStr ++ strDropLeft seg 3
  else if strStarts seg "SUBJ" then subjStr ++ strDropLeft seg 4
  else if strStarts seg "IS" then isStr ++ strDropLeft seg 2
  else "\n" ++ seg

/-- `gloerp(q, t, who, prev)` from the source: split the template on
newlines and substitute every grammar marker relative to the recipient
`pov`, the target list `t` and the actor. -/
def gloerp (actor : Person) (tmpl : String) (t : List Person)
    (pov : Option Person) (prev : Bool) : String :=
  match myExplode tmpl "\n" with
  | [] => ""
  | first :: rest =>
    rest.foldl (fun mess seg => mess ++ gloerpSeg actor t pov prev seg) first

/-- The `prev` flag computed at the head of the loops in `feel` and
`feel_to_this_player`: the new clause addresses exactly the same target
set as the previous one and the actor is not among the previous targets. -/
def prevCalc (actor : Person) (q whoNew : List Person) : Bool :=
  (subArray q whoNew).isEmpty && (subArray whoNew q).isEmpty &&
    !(decide (actor ∈ q))

/-- The loop body of `feel_to_this_player`, recursing over the clause list
while carrying the previous clause's target set `q`. The separator switch
on `sizeof(d)-e` appends `","` while more than two clauses remain and
`" and"` before the final clause. -/
def feelTTPAux (actor : Person) (flag : Nat) (q : List Person) :
    List Feel → String
  | [] => ""
  | f :: rest =>
    let s := gloerp actor (f.texts.getD (flag * 3) "") f.who (some actor)
      (prevCalc actor q f.who)
    let sep :=
      match rest with
      | [] => ""
      | [_] => " and"
      | _ => ","
    s ++ sep ++ feelTTPAux actor flag f.who rest

/-- `feel_to_this_player(d, flag)` from the source: the actor-perspective
combination of the rendered clauses of one parse. -/
def feel_to_this_player (actor : Person) (d : List Feel) (flag : Nat) :
    String :=
  feelTTPAux actor flag [] d

/-- Result of the `prefix` function of the source: no candidate (`0`),
a unique candidate (the matched name) or several (`-1` plus a
`notify_fail` listing). -/
inductive PrefixRes where
  | nomatch
  | unique (s : String)
  | ambig (cands : List String)
deriving DecidableEq, Repr

/-- The character guard at the head of `prefix`: every character of the
pattern must be a lowercase letter or a space. -/
def prefixOk (pr : String) : Bool :=
  pr.data.all (fun c => ('a' ≤ c && c ≤ 'z') || c = ' ')

/-- `prefix(dum, pr, errm)` from the source: the candidates of `dum`
beginning with `pr` (the `regexp(dum, "^"+pr)` call under the character
guard). -/
def prefixMatch (dum : List String) (pr : String) : PrefixRes :=
  if !prefixOk pr then .nomatch
  else
    match dum.filter (fun s => strStarts s pr) with
    | [] => .nomatch
    | [s] => .unique s
    | l => .ambig l

/-- Ordinal rendering of the unknown-word failure in `webster`: the word
table for 1..12 (with the source's own spellings) and the
last-decimal-digit suffix switch beyond. -/
def ordinalWord (n : Nat) : String :=
  match n with
  | 1 => "first" | 2 => "second" | 3 => "third" | 4 => "fourth"
  | 5 => "fifth" | 6 => "sixth" | 7 => "seventh" | 8 => "eigth"
  | 9 => "ninth" | 10 => "tenth" | 11 => "eleventh" | 12 => "twelvth"
  | _ =>
    match n % 10 with
    | 1 => Nat.repr n ++ "st"
    | 2 => Nat.repr n ++ "nd"
    | 3 => Nat.repr n ++ "rd"
    | _ => Nat.repr n ++ "th"

/-- The quoted-message collection loop of `webster`
(`for(e++; mess[strlen(mess)-1]!='"' && e<sizeof(q); e++) mess+=" "+q[e]`):
returns the collected message, the number of tokens consumed and whether a
closing quote was seen. -/
def collectQuote (mess : String) : List String → String × Nat × Bool
  | [] => (mess, 0, lastCh mess = '"')
  | w :: ws =>
    if lastCh mess = '"' then (mess, 0, true)
    else
      let r := collectQuote (mess ++ " " ++ w) ws
      (r.1, r.2.1 + 1, r.2.2)

/-- The token-cursor advance after a unique multi-word adverb match
(the `tmp2` loop of `webster`): consume tokens equal to the phrase's
words, plus one final token that is a proper prefix of the next word. -/
def advancePhrase : List String → List String → Nat → Nat
  | [], _, e => e
  | w :: ws, q, e =>
    if e < q.length then
      let qe := q.getD e ""
      if w = qe then advancePhrase ws q (e + 1)
      else if strStarts w qe then e + 1
      else e
    else e

/-- The growing-candidate adverb scan of `webster`: while the prefix match
is ambiguous and tokens remain, append the next token to the candidate and
retry. Returns the final match, the index of the last token used and the
final candidate string. -/
def adverbScan (names : List String) (q : List String) :
    Nat → Nat → String → PrefixRes × Nat × String
  | 0, u, tmp => (prefixMatch names tmp, u, tmp)
  | fuel + 1, u, tmp =>
    match prefixMatch names tmp with
    | .ambig c =>
      if u + 1 < q.length then
        adverbScan names q fuel (u + 1) (tmp ++ " " ++ q.getD (u + 1) "")
      else (.ambig c, u, tmp)
    | r => (r, u, tmp)

/-- Lookup in an association list (an LPC mapping read `m[k]`). -/
def assocFind {β : Type} (l : List (String × β)) (k : String) : Option β :=
  (l.find? (fun kv => decide (kv.fst = k))).map (·.snd)

/-- The person a name token resolves to: `persons[t]` /
`present(t, environment(this_player()))` filtered by `isplay`, i.e. the
first present person carrying that (lowercase) name. -/
def findPerson (people : List Person) (t : String) : Option Person :=
  people.find? (fun p => decide (p.name = t))

/-- The verb lookup of `webster`: `(p=xverbs[t]) || (p=verbs[t])` — the
extension table is consulted first. -/
def lookupVerb (xverbs verbs : List (String × VerbData)) (t : String) :
    Option VerbData :=
  match assocFind xverbs t with
  | some d => some d
  | none => assocFind verbs t

/-- `remove_verb(v)` from the source: delete the named entries from the
extension table only. -/
def remove_verb (xverbs : List (String × VerbData)) (v : List String) :
    List (String × VerbData) :=
  xverbs.filter (fun kv => !(decide (kv.fst ∈ v)))

/-- `add_verb(m)` from the source: first remove the extension entries whose
names collide with the new map, then merge the new map in. -/
def add_verb (xverbs m : List (String × VerbData)) :
    List (String × VerbData) :=
  remove_verb xverbs ((xverbs.map Prod.fst).inter (m.map Prod.fst)) ++ m

/-- The ambient data one call of `webster` reads: the verb registry tiers,
the adverb vocabularies (the base adverb list is loaded from a data file
outside the repository, so it stays a parameter), the intensifier and
body-part tables, the present-person snapshot `get_persons()`, the actor
`this_player()`, the pending `last_action` prefix and the word-position
offset of the command verb. -/
structure Env where
  verbs : List (String × VerbData)
  xverbs : List (String × VerbData)
  adverbs : List String
  xadverbs : List String
  howWords : List String
  bodydata : List (String × String)
  people : List Person
  actor : Person
  lastAction : String
  offset : Nat
deriving Repr

/-- The mutable locals of one `webster` call: accumulated reduced clauses
`Y`, the open clause's targets/adverbs/bodyparts/message, the pending verb
with its data, the `except` toggle and the pending intensifier `_how`. -/
structure WState where
  Y : List Feel
  who : List Person
  adv : List String
  body : List String
  mess : String
  verb : Option (String × VerbData)
  except : Bool
  hw : Option String
deriving DecidableEq, Repr

/-- How a resolved person set enters the open clause: subtracted in
exclusion mode, appended otherwise. -/
def whoAfter (except : Bool) (who new : List Person) : List Person :=
  if except then subArray who new else who ++ new

/-- Outcome of processing the token at index `e`: continue at a new index
with updated token array and state, or abort the parse. -/
inductive TokOut where
  | cont (q : List String) (e : Nat) (st : WState)
  | fail (f : Failure)
deriving DecidableEq, Repr

/-- The continuation prefix stored on an ambiguous token:
`last_action + (e ? implode(q[0..e-1], " ") : "")`. -/
def parsedPartOf (E : Env) (q : List String) (e : Nat) : String :=
  E.lastAction ++ (if e = 0 then "" else joinStr " " (q.take e))

/-- One iteration of the token loop of `webster` on the fetched token
`t0 = q[e]`, covering the quoted message collection, comma stripping, the
intensifier table, the reserved word switch and the default branch's
resolution chain (person, verb, adverb, body part, person prefix, adverb
prefix, unknown word). -/
def websterStep (E : Env) (q : List String) (e : Nat) (t0 : String)
    (st : WState) : TokOut :=
  if frontCh t0 = '"' then
    let r := collectQuote (strDropLeft t0 1) (q.drop (e + 1))
    if r.2.2 then .cont q (e + 1 + r.2.1) { st with mess := strDropLast r.1 }
    else .cont q q.length { st with mess := r.1 }
  else
    let comma := t0 ≠ "" && lastCh t0 = ','
    let t := if comma then strDropLast t0 else t0
    let q1 := if comma then q.set e t else q
    if decide (t ∈ E.howWords) then .cont q1 (e + 1) { st with hw := some t }
    else
      match t with
      | "and" | "&" | "" | "at" | "to" | "before" | "in" | "on" | "the"
      | "with" => .cont q1 (e + 1) st
      | "me" | "myself" | "I" =>
        .cont q1 (e + 1)
          { st with who := whoAfter st.except st.who [E.actor] }
      | "them" | "him" | "her" | "it" =>
        match st.Y.getLast? with
        | none => .fail (.notifyFail "Who?\n")
        | some fl =>
          if t = "them" then
            if fl.who.length < 2 then .fail (.notifyFail "Who?\n")
            else .cont q1 (e + 1)
              { st with who := whoAfter st.except st.who fl.who }
          else
            match fl.who with
            | [p] =>
              if p.objective ≠ t then .fail (.notifyFail "Who?\n")
              else .cont q1 (e + 1)
                { st with who := whoAfter st.except st.who fl.who }
            | _ => .fail (.notifyFail "Who?\n")
      | "all" | "everybody" | "everyone" =>
        if st.except then .cont q1 (e + 1) { st with who := [] }
        else .cont q1 (e + 1)
          { st with who := st.who ++ subArray E.people [E.actor] }
      | "except" | "but" =>
        if !st.except && st.who.isEmpty then
          .fail (.notifyFail
            ("That '" ++ t ++ "' doesn't look grammatically right there.\n"))
        else .cont q1 (e + 1) { st with except := !st.except }
      | "plainly" => .cont q1 (e + 1) { st with adv := [""] }
      | _ =>
        match findPerson E.people t with
        | some ob =>
          .cont q1 (e + 1) { st with who := whoAfter st.except st.who [ob] }
        | none =>
          match lookupVerb E.xverbs E.verbs t with
          | some vd =>
            match st.verb with
            | some pv =>
              match reduce_verb pv.1 pv.2 st.who st.adv st.mess st.body with
              | .error f => .fail f
              | .ok fl =>
                .cont q1 (e + 1)
                  { st with
                    Y := st.Y ++ fl
                    who := []
                    adv := []
                    body := []
                    mess := ""
                    verb := some (t, vd)
                    except := false }
            | none => .cont q1 (e + 1) { st with verb := some (t, vd) }
          | none =>
            if decide (t ∈ E.adverbs) || decide (t ∈ E.xadverbs) then
              match st.hw with
              | some h =>
                .cont q1 (e + 1)
                  { st with adv := st.adv ++ [h ++ " " ++ t], hw := none }
              | none => .cont q1 (e + 1) { st with adv := st.adv ++ [t] }
            else
              match assocFind E.bodydata t with
              | some bp => .cont q1 (e + 1) { st with body := st.body ++ [bp] }
              | none =>
                match prefixMatch (dedupFirst (E.people.map (·.name))) t with
                | .unique nm =>
                  let q2 := q1.set e nm
                  match findPerson E.people nm with
                  | some ob =>
                    .cont q2 (e + 1)
                      { st with who := whoAfter st.except st.who [ob] }
                  | none => .cont q2 (e + 1) st
                | .ambig cands =>
                  .fail (.ambiguous "Who do you mean?" cands
                    (parsedPartOf E q1 e) t (joinStr " " (q1.drop (e + 1))))
                | .nomatch =>
                  let r1 := adverbScan E.adverbs q1 q1.length e t
                  let r :=
                    if r1.1 = PrefixRes.nomatch then
                      adverbScan E.xadverbs q1 q1.length e t
                    else r1
                  match r with
                  | (.unique p, _, _) =>
                    let e2 := advancePhrase (myExplode p " ") q1 e
                    if p = "plainly" then .cont q1 e2 { st with adv := [""] }
                    else
                      match st.hw with
                      | some h =>
                        .cont q1 e2
                          { st with
                            adv := st.adv ++ [h ++ " " ++ p]
                            hw := none }
                      | none =>
                        .cont q1 e2 { st with adv := st.adv ++ [p] }
                  | (.ambig cands, u, _) =>
                    .fail (.ambiguous "What adverb was that?" cands
                      (parsedPartOf E q1 e) t (joinStr " " (q1.drop (u + 1))))
                  | (.nomatch, _, _) =>
                    .fail (.notifyFail
                      ("The " ++ ordinalWord (E.offset + e) ++
                        " word in that sentence doesn't make sense to me.\n"))

/-- One iteration of the token loop of `webster` at index `e`. -/
def websterToken (E : Env) (q : List String) (e : Nat) (st : WState) :
    TokOut :=
  websterStep E q e (q.getD e "") st

/-- The end of the token loop of `webster`: no verb at all is the
`"No verb?"` failure, otherwise the last pending clause is reduced and
appended. -/
def websterEnd (st : WState) : Except Failure (List Feel) :=
  match st.verb with
  | none => .error (.notifyFail "No verb?\n")
  | some pv =>
    match reduce_verb pv.1 pv.2 st.who st.adv st.mess st.body with
    | .error f => .error f
    | .ok fl => .ok (st.Y ++ fl)

/-- The token loop of `webster`, driven by a fuel bound: every real
iteration advances the cursor by at least one token, so fuel
`q.length + 1` is never exhausted before the cursor passes the end. -/
def websterLoop (E : Env) : Nat → List String → Nat → WState →
    Except Failure (List Feel)
  | 0, _, _, st => websterEnd st
  | fuel + 1, q, e, st =>
    if e < q.length then
      match websterToken E q e st with
      | .fail f => .error f
      | .cont q' e' st' => websterLoop E fuel q' e' st'
    else websterEnd st

/-- `webster(t, offset)` from the source: tokenize on spaces (dropping
empty tokens) and run the token loop from a fresh clause state. -/
def webster (E : Env) (t : String) : Except Failure (List Feel) :=
  let q := subArray (myExplode t " ") [""]
  websterLoop E (q.length + 1) q 0 ⟨[], [], [], [], "", none, false, none⟩

/-- The resolved target list of every clause of a successful parse. -/
def clauseTargets (r : Except Failure (List Feel)) : List (List Person) :=
  match r with
  | .ok l => l.map (·.who)
  | .error _ => []

/-- The rendered clause strings the combiner joins, in order, threading
the previous clause's target set into each `prev` flag. -/
def renderedParts (actor : Person) (flag : Nat) :
    List Person → List Feel → List String
  | _, [] => []
  | q, f :: rest =>
    gloerp actor (f.texts.getD (flag * 3) "") f.who (some actor)
        (prevCalc actor q f.who) ::
      renderedParts actor flag f.who rest

/-- The joiner shape stated by the specification: no joiner for a single
clause, a single `" and"` for two, and a comma before every clause except
the last, which is preceded by `" and"` (each rendered clause string
carries its own leading space, so the visible joint text reads ", " and
" and "). -/
def specJoin : List String → String
  | [] => ""
  | [a] => a
  | [a, b] => a ++ " and" ++ b
  | a :: rest => a ++ "," ++ specJoin rest

/-- The terminator choice of `do_feel`/`suddenly`/`feeling`: a period and
newline unless the actor-facing message already ends in `.`, `?` or `!`,
in which case only the newline. -/
def terminatorChoice (v : String) : String :=
  if lastCh v ≠ '.' ∧ lastCh v ≠ '?' ∧ lastCh v ≠ '!' then ".\n" else "\n"

/-- The actor-facing output after the terminator is appended (`tell_room`
appends the chosen terminator to every pending message buffer). -/
def finishOutput (v : String) : String := v ++ terminatorChoice v

/-- Specification-side predicate: the message already ends in one of the
three sentence-final punctuation characters. -/
def endsPunct (v : String) : Bool :=
  match v.data.getLast? with
  | some c => c = '.' || c = '?' || c = '!'
  | none => false

/-- The template the source's empty-target check in the SIMP-path shapes
examines, before the `\nAT` substitution: the constructed stem for
DEFA/PREV/PHYS/SHRT, the no-target template for PERS, and `verbdata[2]`
for SIMP. -/
def rawA (verb : String) (vd : VerbData) : String :=
  match vd.shape with
  | .DEFA => " " ++ verb ++ "$ \nHOW \nAT"
  | .PREV => " " ++ verb ++ "$" ++ vd.data.getD 0 "" ++ " \nWHO \nHOW"
  | .PHYS => " " ++ verb ++ "$" ++ vd.data.getD 0 "" ++ " \nWHO \nHOW \nWHERE"
  | .SHRT => " " ++ verb ++ "$" ++ vd.data.getD 0 "" ++ " \nHOW"
  | .PERS => vd.data.getD 0 ""
  | .SIMP => vd.data.getD 0 ""
  | _ => ""

/-- The selected template an empty-target SIMP-path reduction checks for
person slots: `rawA` after the (empty) `\nAT` substitution. -/
def simpSelected (verb : String) (vd : VerbData) : String :=
  replaceStr (rawA verb vd) " \nAT" ""

/-- A verb definition with its default adverb cleared (the other default
slots kept). -/
def clearAdvDefault (vd : VerbData) : VerbData :=
  { vd with
    defaults :=
      match vd.defaults with
      | some (_ :: rest) => some (none :: rest)
      | d => d }

/-- Concrete fixture persons for the witnesses and counterexamples. -/
def alice : Person := ⟨0, "alice", "Alice", "her", "her", "she"⟩

def bob : Person := ⟨1, "bob", "Bob", "him", "his", "he"⟩

def carol : Person := ⟨2, "carol", "Carol", "her", "her", "she"⟩

/-- A concrete environment: base verb table, empty extension tiers and
adverb vocabulary, the intensifier and bodypart tables, Alice as actor
with Bob and Carol present, offset 1 as in `do_feel`. -/
def baseEnv : Env :=
  ⟨get_verbs, [], [], [], get_how, get_bodydata, [alice, bob, carol],
    alice, "", 1⟩

/-- An extension verb definition registered under the base name "smile". -/
def fakeSmile : VerbData := ⟨.SHRT, none, [" like the cheshire cat"]⟩

/-- `baseEnv` after `add_verb((["smile": fakeSmile]))`. -/
def shadowEnv : Env := { baseEnv with xverbs := add_verb [] [("smile", fakeSmile)] }

/-- A QUAD extension verb whose no-target templates still name a person
slot. -/
def quadNeedy : VerbData :=
  ⟨.QUAD, none, [" frob \nWHO", " frobs \nWHO", " frob \nWHO", " frobs \nWHO"]⟩

/-! ## Claim theorems -/

/-- Helper for C1: a name being unregistered makes the extension lookup
miss it. -/
theorem removeVerb_find_none (xv : List (String × VerbData))
    (names : List String) (t : String) (ht : t ∈ names) :
    assocFind (remove_verb xv names) t = none := by
  unfold assocFind remove_verb
  have h : (xv.filter fun kv => !decide (kv.fst ∈ names)).find?
      (fun kv => decide (kv.fst = t)) = none := by
    rw [List.find?_eq_none]
    intro x hx
    rw [List.mem_filter] at hx
    simp only [Bool.not_eq_true', decide_eq_false_iff_not] at hx
    simp only [decide_eq_true_eq]
    intro hxe
    exact hx.2 (hxe ▸ ht)
  rw [h]
  rfl

/-- C1 (counterexample): the claim that a parse resolves a base verb name
to its original base definition even while an extension entry is
registered under that name is false: `webster`'s lookup consults the
extension table first, so `add_verb((["smile": fakeSmile]))` makes the
name "smile" resolve to `fakeSmile`, not to the base DEFA definition, and
the parse of "smile" produces different output than with an empty
extension table. -/
theorem c1_counterexample :
    lookupVerb shadowEnv.xverbs shadowEnv.verbs "smile" = some fakeSmile
    ∧ assocFind get_verbs "smile" =
        some ⟨.DEFA, some [some "happily"], ["", " at"]⟩
    ∧ fakeSmile ≠ (⟨.DEFA, some [some "happily"], ["", " at"]⟩ : VerbData)
    ∧ webster shadowEnv "smile" ≠ webster baseEnv "smile" := by decide

/-- C1 (amended): extension-registry operations never mutate the base
table, and lookup falls back to it exactly when the extension table
misses: (1) a name absent from the extension table resolves to its base
definition; (2) while an extension entry for a name exists, lookup
returns that entry (a base name is shadowed, not replaced); (3)
`remove_verb` removes the named extension entries, so (with (1)) the base
definition resolves again afterwards; (4) `add_verb` makes its entries
resolvable, overriding extension entries of the same name. -/
theorem c1_amended :
    (∀ (xv vs : List (String × VerbData)) (t : String),
      assocFind xv t = none → lookupVerb xv vs t = assocFind vs t)
    ∧ (∀ (xv vs : List (String × VerbData)) (t : String) (d : VerbData),
      assocFind xv t = some d → lookupVerb xv vs t = some d)
    ∧ (∀ (xv : List (String × VerbData)) (names : List String) (t : String),
      t ∈ names → assocFind (remove_verb xv names) t = none)
    ∧ (∀ (xv m : List (String × VerbData)) (t : String) (d : VerbData),
      assocFind m t = some d → assocFind (add_verb xv m) t = some d) := by
  refine ⟨?_, ?_, removeVerb_find_none, ?_⟩
  · intro xv vs t h
    unfold lookupVerb
    rw [h]
  · intro xv vs t d h
    unfold lookupVerb
    rw [h]
  · intro xv m t d h
    have hmem : t ∈ m.map Prod.fst := by
      unfold assocFind at h
      rcases hf : m.find? (fun kv => decide (kv.fst = t)) with _ | kv
      · rw [hf] at h; exact absurd h (by simp)
      · have hp := List.find?_some hf
        simp only [decide_eq_true_eq] at hp
        exact List.mem_map.mpr ⟨kv, List.mem_of_find?_eq_some hf, hp⟩
    have hnone : (remove_verb xv
        ((xv.map Prod.fst).inter (m.map Prod.fst))).find?
        (fun kv => decide (kv.fst = t)) = none := by
      unfold remove_verb
      rw [List.find?_eq_none]
      intro x hx
      rw [List.mem_filter] at hx
      simp only [Bool.not_eq_true', decide_eq_false_iff_not] at hx
      simp only [decide_eq_true_eq]
      intro hxe
      apply hx.2
      simp only [List.inter, List.mem_filter, List.elem_iff]
      exact ⟨List.mem_map.mpr ⟨x, hx.1, rfl⟩, hxe ▸ hmem⟩
    unfold add_verb assocFind
    rw [List.find?_append, hnone]
    unfold assocFind at h
    rcases hf2 : m.find? (fun kv => decide (kv.fst = t)) with _ | kv2
    · rw [hf2] at h; exact absurd h (by simp)
    · rw [hf2] at h
      simpa [Option.or, hf2] using h

/-- C1 (witness): instantiating the amended claim on the "smile"
registration round trip. -/
theorem c1_amended_witness :
    lookupVerb (add_verb [] [("smile", fakeSmile)]) get_verbs "smile" =
      some fakeSmile
    ∧ lookupVerb (remove_verb (add_verb [] [("smile", fakeSmile)]) ["smile"])
        get_verbs "smile" = assocFind get_verbs "smile" := by
  constructor
  · exact c1_amended.2.1 _ get_verbs "smile" fakeSmile
      (c1_amended.2.2.2 [] [("smile", fakeSmile)] "smile" fakeSmile (by decide))
  · exact c1_amended.1 _ get_verbs "smile"
      (c1_amended.2.2.1 _ ["smile"] "smile" (by decide))

/-- C2 (counterexample): clause target lists are not duplicate-free: with
Bob present, parsing "wave bob bob" yields one clause whose resolved
target list contains Bob twice. -/
theorem c2_counterexample :
    clauseTargets (webster baseEnv "wave bob bob") = [[bob, bob]]
    ∧ ¬ List.Nodup [bob, bob] := by decide

/-- C2 (amended): person-token resolution appends to the accumulating
target list without deduplication (in non-exclusion mode), so naming the
same present person twice yields that person twice in the clause's target
list, as the concrete parse "wave bob bob" shows. -/
theorem c2_amended :
    (∀ (who : List Person) (ob : Person),
      whoAfter false who [ob] = who ++ [ob])
    ∧ clauseTargets (webster baseEnv "wave bob bob") = [[bob, bob]] :=
  ⟨fun _ _ => rfl, by decide⟩

/-- C3 (counterexample): a back-reference whose prior clause target set
has exactly one member can still fail: parsing "wave bob and hug her"
fails with "Who?" although the prior clause's target set is exactly
`[bob]` (of size one, as the parse of "wave bob" exhibits), because the
source additionally requires the single prior target's objective pronoun
to equal the token ("him" for Bob, not "her"). -/
theorem c3_counterexample :
    webster baseEnv "wave bob and hug her" = .error (.notifyFail "Who?\n")
    ∧ clauseTargets (webster baseEnv "wave bob") = [[bob]]
    ∧ List.length [bob] = 1 := by decide

/-- C3 (amended): a back-reference token `it`/`him`/`her`/`them` resolves
to the target set of the most recently closed clause of the same parse,
and the parse fails with "Who?" when no prior clause exists, when `them`
is used with a prior set of fewer than two members, or when
`it`/`him`/`her` is used and the prior set either does not have exactly
one member or its single member's objective pronoun differs from the
token. -/
theorem c3_amended (E : Env) (q : List String) (e : Nat) (st : WState)
    (t : String) (hq : q.getD e "" = t)
    (ht : t = "it" ∨ t = "him" ∨ t = "her" ∨ t = "them")
    (hhow : t ∉ E.howWords) :
    (st.Y = [] → websterToken E q e st = .fail (.notifyFail "Who?\n"))
    ∧ (∀ fl, st.Y.getLast? = some fl →
        (t = "them" → fl.who.length < 2 →
          websterToken E q e st = .fail (.notifyFail "Who?\n"))
        ∧ (t = "them" → 2 ≤ fl.who.length →
          websterToken E q e st =
            .cont q (e + 1) { st with who := whoAfter st.except st.who fl.who })
        ∧ (∀ p, fl.who = [p] → t ≠ "them" → p.objective = t →
          websterToken E q e st =
            .cont q (e + 1) { st with who := whoAfter st.except st.who [p] })
        ∧ (∀ p, fl.who = [p] → t ≠ "them" → p.objective ≠ t →
          websterToken E q e st = .fail (.notifyFail "Who?\n"))
        ∧ (t ≠ "them" → fl.who.length ≠ 1 →
          websterToken E q e st = .fail (.notifyFail "Who?\n"))) := by
  unfold websterToken
  rw [hq]
  have hY : st.Y = [] → st.Y.getLast? = none := by intro h; rw [h]; rfl
  rcases ht with ht | ht | ht | ht <;> subst ht <;>
    refine ⟨fun h => by simp +decide [websterStep, hhow, hY h], fun fl hfl => ?_⟩
  case inl =>
    refine ⟨fun h => absurd h (by decide), fun h => absurd h (by decide),
      ?_, ?_, ?_⟩
    · intro p hwho _ hobj
      simp +decide [websterStep, hhow, hfl, hwho, hobj]
    · intro p hwho _ hobj
      simp +decide [websterStep, hhow, hfl, hwho, hobj]
    · intro _ hlen
      rcases hwho : fl.who with _ | ⟨a, _ | ⟨b, tl⟩⟩
      · simp +decide [websterStep, hhow, hfl, hwho]
      · exact absurd (by rw [hwho]; rfl) hlen
      · simp +decide [websterStep, hhow, hfl, hwho]
  case inr.inl =>
    refine ⟨fun h => absurd h (by decide), fun h => absurd h (by decide),
      ?_, ?_, ?_⟩
    · intro p hwho _ hobj
      simp +decide [websterStep, hhow, hfl, hwho, hobj]
    · intro p hwho _ hobj
      simp +decide [websterStep, hhow, hfl, hwho, hobj]
    · intro _ hlen
      rcases hwho : fl.who with _ | ⟨a, _ | ⟨b, tl⟩⟩
      · simp +decide [websterStep, hhow, hfl, hwho]
      · exact absurd (by rw [hwho]; rfl) hlen
      · simp +decide [websterStep, hhow, hfl, hwho]
  case inr.inr.inl =>
    refine ⟨fun h => absurd h (by decide), fun h => absurd h (by decide),
      ?_, ?_, ?_⟩
    · intro p hwho _ hobj
      simp +decide [websterStep, hhow, hfl, hwho, hobj]
    · intro p hwho _ hobj
      simp +decide [websterStep, hhow, hfl, hwho, hobj]
    · intro _ hlen
      rcases hwho : fl.who with _ | ⟨a, _ | ⟨b, tl⟩⟩
      · simp +decide [websterStep, hhow, hfl, hwho]
      · exact absurd (by rw [hwho]; rfl) hlen
      · simp +decide [websterStep, hhow, hfl, hwho]
  case inr.inr.inr =>
    refine ⟨?_, ?_, fun p _ h _ => absurd rfl h, fun p _ h _ => absurd rfl h,
      fun h => absurd rfl h⟩
    · intro _ hlen
      simp +decide [websterStep, hhow, hfl, hlen]
    · intro _ hlen
      have hnl : ¬ fl.who.length < 2 := Nat.not_lt.mpr hlen
      simp +decide [websterStep, hhow, hfl, hnl]

/-- The parser state just before the token "her" of
"wave bob and hug her": the wave clause is reduced with target Bob, and
"hug" is the pending verb. -/
def c3State : WState :=
  ⟨[⟨[bob], [" wave happily at \nWHO", " waves happily at \nWHO",
      " waves happily at \nWHO", " wave happily at \nWHO",
      " wave happily at \nWHO", " wave happily at \nWHO"]⟩],
    [], [], [], "", some ("hug", ⟨.PREV, none, [""]⟩), false, none⟩

/-- C3 (witness): instantiating the amended claim at the state before
"her"/"him" in "wave bob and hug her|him": the gender-mismatched "her"
fails, the matching "him" resolves to the prior set `[bob]`. -/
theorem c3_amended_witness :
    websterToken baseEnv ["wave", "bob", "and", "hug", "her"] 4 c3State =
      .fail (.notifyFail "Who?\n")
    ∧ websterToken baseEnv ["wave", "bob", "and", "hug", "him"] 4 c3State =
      .cont ["wave", "bob", "and", "hug", "him"] 5
        { c3State with who := whoAfter c3State.except c3State.who [bob] } := by
  constructor
  · exact ((c3_amended baseEnv _ 4 c3State "her" (by decide)
      (Or.inr (Or.inr (Or.inl rfl))) (by decide)).2 _ rfl).2.2.2.1 bob rfl
      (by decide) (by decide)
  · exact ((c3_amended baseEnv _ 4 c3State "him" (by decide)
      (Or.inr (Or.inl rfl)) (by decide)).2 _ rfl).2.2.1 bob rfl
      (by decide) (by decide)

/-- C4: the group words `all`/`everybody`/`everyone` extend the open
clause's target list by all present persons minus the actor; in exclusion
mode a resolved person is subtracted from the accumulating list, which is
a no-op when the person is absent; and concretely, with actor Alice and
Bob and Carol present, "wave at all" resolves the target list to
[Bob, Carol] and "wave at all except bob" to [Carol]. -/
theorem c4_group_and_exclusion :
    (∀ (E : Env) (q : List String) (e : Nat) (st : WState) (t : String),
      q.getD e "" = t → (t = "all" ∨ t = "everybody" ∨ t = "everyone") →
      t ∉ E.howWords → st.except = false →
      websterToken E q e st =
        .cont q (e + 1)
          { st with who := st.who ++ subArray E.people [E.actor] })
    ∧ (∀ (who : List Person) (ob : Person),
      whoAfter true who [ob] = subArray who [ob])
    ∧ (∀ (who : List Person) (ob : Person), ob ∉ who →
      whoAfter true who [ob] = who)
    ∧ clauseTargets (webster baseEnv "wave at all") = [[bob, carol]]
    ∧ clauseTargets (webster baseEnv "wave at all except bob") = [[carol]] := by
  refine ⟨?_, fun _ _ => rfl, ?_, by decide, by decide⟩
  · intro E q e st t hq ht hhow hex
    unfold websterToken
    rw [hq]
    rcases ht with ht | ht | ht <;> subst ht <;>
      simp +decide [websterStep, hhow, hex]
  · intro who ob h
    show subArray who [ob] = who
    unfold subArray
    apply List.filter_eq_self.mpr
    intro a ha
    simp only [List.mem_singleton, Bool.not_eq_true', decide_eq_false_iff_not]
    intro heq
    exact h (heq ▸ ha)

/-- C4 (witness): instantiating the group-word step at the state after
"wave at", and the absent-person no-op of exclusion mode. -/
theorem c4_witness :
    websterToken baseEnv ["wave", "at", "all"] 2
      ⟨[], [], [], [], "",
        some ("wave", ⟨.DEFA, some [some "happily"], ["", " at"]⟩),
        false, none⟩ =
      .cont ["wave", "at", "all"] 3
        ⟨[], [] ++ subArray baseEnv.people [baseEnv.actor], [], [], "",
          some ("wave", ⟨.DEFA, some [some "happily"], ["", " at"]⟩),
          false, none⟩
    ∧ whoAfter true [carol] [bob] = [carol] := by
  constructor
  · exact c4_group_and_exclusion.1 baseEnv ["wave", "at", "all"] 2
      ⟨[], [], [], [], "",
        some ("wave", ⟨.DEFA, some [some "happily"], ["", " at"]⟩),
        false, none⟩ "all" (by decide) (Or.inl rfl) (by decide) rfl
  · exact c4_group_and_exclusion.2.2.1 [carol] bob (by decide)

/-- C5: the unknown-token failure does name the token's ordinal position,
but not with the claimed spellings: the source renders position 8 as
"eigth" and position 12 as "twelvth" (not the English ordinal words
"eighth"/"twelfth"), and beyond twelve it chooses the suffix by the last
decimal digit alone, so the thirteenth position renders as "13rd" (not
"13th"), as the unknown thirteenth word "qqq" exhibits. -/
theorem c5_code_divergence :
    webster baseEnv "wave at at at at at at at at at at at qqq" =
      .error (.notifyFail
        "The 13rd word in that sentence doesn't make sense to me.\n")
    ∧ ordinalWord 8 = "eigth" ∧ ordinalWord 12 = "twelvth"
    ∧ ordinalWord 13 = "13rd" ∧ ordinalWord 1 = "first"
    ∧ ordinalWord 21 = "21st" ∧ ordinalWord 30 = "30th" := by decide

/-- C6 (counterexample): a QUAD verb whose selected (no-target) template
names a person slot does not make reduction fail on an empty target list:
the QUAD case of `reduce_verb` performs no empty-target check, so the
clause reduces successfully, with the `\nWHO` marker left for rendering. -/
theorem c6_counterexample :
    needsPerson (quadNeedy.data.getD 0 "") = true
    ∧ reduce_verb "frob" quadNeedy [] [] "" [] =
      .ok [⟨[], [" frob \nWHO", " frobs \nWHO", " frobs \nWHO",
        " frob \nWHO", " frob \nWHO", " frob \nWHO"]⟩] := by decide

/-- C6 (amended): for the shapes reduced through the SIMP template path
(SIMP, DEFA, PREV, PHYS, SHRT, PERS), an empty target list makes
reduction fail with "Need person for verb <verb>." exactly when the
selected template (after the empty `\nAT` substitution) contains a
`\nWHO`/`\nPOSS`/`\nTHEIR`/`\nOBJ` slot; for DEUX the same check is
applied to the first (singular) template; QUAD and FULL reductions
perform no such check. -/
theorem c6_amended :
    (∀ (verb : String) (vd : VerbData) (adv : List String) (mess : String)
      (body : List String),
      (vd.shape = .SIMP ∨ vd.shape = .DEFA ∨ vd.shape = .PREV ∨
        vd.shape = .PHYS ∨ vd.shape = .SHRT ∨ vd.shape = .PERS) →
      needsPerson (simpSelected verb vd) = true →
      reduce_verb verb vd [] adv mess body =
        .error (.notifyFail ("Need person for verb " ++ verb ++ ".\n")))
    ∧ (∀ (verb : String) (vd : VerbData) (adv : List String) (mess : String)
      (body : List String),
      vd.shape = .DEUX → needsPerson (vd.data.getD 0 "") = true →
      reduce_verb verb vd [] adv mess body =
        .error (.notifyFail ("Need person for verb " ++ verb ++ ".\n"))) := by
  constructor
  · intro verb vd adv mess body hs hneed
    unfold simpSelected rawA at hneed
    rcases hs with hs | hs | hs | hs | hs | hs <;>
      rw [hs] at hneed <;> simp at hneed <;>
      simp +decide [reduce_verb, hs, simpTail, hneed]
  · intro verb vd adv mess body hs hneed
    simp at hneed
    simp +decide [reduce_verb, hs, hneed]

/-- C6 (witness): instantiating the amended claim on the PREV verb "hug"
and the DEUX verb "pinch" with empty target lists. -/
theorem c6_amended_witness :
    reduce_verb "hug" ⟨.PREV, none, [""]⟩ [] [] "" [] =
      .error (.notifyFail "Need person for verb hug.\n")
    ∧ reduce_verb "pinch" ⟨.DEUX, none,
        [" pinch \nWHO \nHOW \nWHERE", " pinches \nWHO \nHOW \nWHERE"]⟩
        [] [] "" [] =
      .error (.notifyFail "Need person for verb pinch.\n") := by
  constructor
  · exact c6_amended.1 "hug" ⟨.PREV, none, [""]⟩ [] "" []
      (Or.inr (Or.inr (Or.inl rfl))) (by decide)
  · exact c6_amended.2 "pinch" _ [] "" [] rfl (by decide)

/-- Helper for C7: the combiner loop equals the specification's joiner
shape for every starting previous-target set. -/
theorem feelTTP_spec (actor : Person) (flag : Nat) :
    ∀ (d : List Feel) (q : List Person),
      feelTTPAux actor flag q d = specJoin (renderedParts actor flag q d) := by
  intro d
  induction d with
  | nil => intro q; rfl
  | cons f rest ih =>
    intro q
    match rest with
    | [] => simp [feelTTPAux, renderedParts, specJoin]
    | [g] => simp [feelTTPAux, renderedParts, specJoin]
    | g :: h :: tl =>
      have hx := ih f.who
      simp only [feelTTPAux, renderedParts, specJoin] at hx ⊢
      rw [hx]

/-- C7: the combined output of a successful parse joins the rendered
clause strings with a comma joiner between all clause pairs except the
final pair and the `" and"` word joiner between the final two clauses
(one clause: no joiner; two clauses: a single `" and"`); every rendered
clause string begins with its template's leading space, so the visible
joints read ", " and " and ". -/
theorem c7_combiner (actor : Person) (flag : Nat) (d : List Feel) :
    feel_to_this_player actor d flag =
      specJoin (renderedParts actor flag [] d) :=
  feelTTP_spec actor flag d []

/-- C8: a rendered command's actor-facing output gets a terminating
period exactly when the message does not already end in `.`, `?` or `!`;
when it does, only the newline is appended, and in both cases the message
text itself is unchanged. -/
theorem c8_terminator (v : String) (_hv : v ≠ "") :
    (endsPunct v = true → finishOutput v = v ++ "\n")
    ∧ (endsPunct v = false → finishOutput v = v ++ ".\n") := by
  unfold finishOutput terminatorChoice endsPunct lastCh
  cases h : v.data.getLast? with
  | none => simp
  | some c =>
    by_cases h1 : c = '.' <;> by_cases h2 : c = '?' <;> by_cases h3 : c = '!' <;>
      simp [h1, h2, h3]

/-- C8 (witness): instantiating the terminator rule on a plain message
and on one already ending in a question mark. -/
theorem c8_terminator_witness :
    finishOutput "You smile happily" = "You smile happily" ++ ".\n"
    ∧ finishOutput "You ask: what?" = "You ask: what?" ++ "\n" := by
  constructor
  · exact (c8_terminator "You smile happily" (by decide)).2 (by decide)
  · exact (c8_terminator "You ask: what?" (by decide)).1 (by decide)

/-- C9: the token "plainly" sets the open clause's adverb list to the
single empty phrase; that list's rendered adverb string is empty; with
the adverb slot populated this way, reduction of any verb definition that
carries a default adverb is identical to reducing with no adverbs and no
default adverb at all (the default is blocked and every `\nHOW`
placeholder is erased); and concretely "smile plainly" renders with no
adverb text although "smile" defaults to "happily". -/
theorem c9_plainly :
    (∀ (E : Env) (q : List String) (e : Nat) (st : WState),
      q.getD e "" = "plainly" → "plainly" ∉ E.howWords →
      websterToken E q e st = .cont q (e + 1) { st with adv := [""] })
    ∧ howString [""] = ""
    ∧ (∀ (verb : String) (vd : VerbData) (who : List Person) (mess : String)
        (body : List String),
      (∃ a0 rest, vd.defaults = some (some a0 :: rest)) →
      reduce_verb verb vd who [""] mess body =
        reduce_verb verb (clearAdvDefault vd) who [] mess body)
    ∧ webster baseEnv "smile plainly" =
      .ok [⟨[], [" smile", " smiles", " smiles", " smile", " smile",
        " smile"]⟩] := by
  refine ⟨?_, by decide, ?_, by decide⟩
  · intro E q e st hq hhow
    unfold websterToken
    rw [hq]
    simp +decide [websterStep, hhow]
  · intro verb vd who mess body h
    obtain ⟨a0, rest, hd⟩ := h
    rcases vd with ⟨shape, dflts, data⟩
    simp only at hd
    subst hd
    have h1 : howString [""] = "" := by decide
    have h2 : howString [] = "" := by decide
    cases shape <;>
      simp +decide [reduce_verb, clearAdvDefault, simpTail, deuxTail, h1, h2]

/-- C9 (witness): instantiating the plainly rule at the token after
"smile", and the reduction equivalence on the "smile" definition with its
default adverb "happily". -/
theorem c9_plainly_witness :
    websterToken baseEnv ["smile", "plainly"] 1
      ⟨[], [], [], [], "",
        some ("smile", ⟨.DEFA, some [some "happily"], ["", " at"]⟩),
        false, none⟩ =
      .cont ["smile", "plainly"] 2
        ⟨[], [], [""], [], "",
          some ("smile", ⟨.DEFA, some [some "happily"], ["", " at"]⟩),
          false, none⟩
    ∧ reduce_verb "smile" ⟨.DEFA, some [some "happily"], ["", " at"]⟩
        [bob] [""] "" [] =
      reduce_verb "smile"
        (clearAdvDefault ⟨.DEFA, some [some "happily"], ["", " at"]⟩)
        [bob] [] "" [] := by
  constructor
  · exact c9_plainly.1 baseEnv ["smile", "plainly"] 1
      ⟨[], [], [], [], "",
        some ("smile", ⟨.DEFA, some [some "happily"], ["", " at"]⟩),
        false, none⟩ (by decide) (by decide)
  · exact c9_plainly.2.2.1 "smile" ⟨.DEFA, some [some "happily"], ["", " at"]⟩
      [bob] "" [] ⟨"happily", [], rfl⟩

/-- C10: an `except`/`but` token met while exclusion mode is off and the
open clause's target list is still empty aborts the parse with the
grammar failure naming the token; otherwise the token toggles exclusion
mode, so exclusion is entered only when at least one target has already
been resolved. -/
theorem c10_except_guard (E : Env) (q : List String) (e : Nat) (st : WState)
    (t : String) (hq : q.getD e "" = t) (ht : t = "except" ∨ t = "but")
    (hhow : t ∉ E.howWords) (hex : st.except = false) :
    (st.who = [] → websterToken E q e st =
      .fail (.notifyFail
        ("That '" ++ t ++ "' doesn't look grammatically right there.\n")))
    ∧ (st.who ≠ [] →
      websterToken E q e st = .cont q (e + 1) { st with except := true }) := by
  unfold websterToken
  rw [hq]
  rcases ht with ht | ht <;> subst ht <;>
    constructor <;> intro hwho <;>
    simp +decide [websterStep, hhow, hex, hwho]

/-- C10 (witness): instantiating the guard right after "wave" (empty
target list: failure) and after "wave bob" (one target: exclusion mode
entered). -/
theorem c10_except_guard_witness :
    websterToken baseEnv ["wave", "except"] 1
      ⟨[], [], [], [], "",
        some ("wave", ⟨.DEFA, some [some "happily"], ["", " at"]⟩),
        false, none⟩ =
      .fail (.notifyFail
        "That 'except' doesn't look grammatically right there.\n")
    ∧ websterToken baseEnv ["wave", "bob", "but"] 2
      ⟨[], [bob], [], [], "",
        some ("wave", ⟨.DEFA, some [some "happily"], ["", " at"]⟩),
        false, none⟩ =
      .cont ["wave", "bob", "but"] 3
        ⟨[], [bob], [], [], "",
          some ("wave", ⟨.DEFA, some [some "happily"], ["", " at"]⟩),
          true, none⟩ := by
  constructor
  · exact (c10_except_guard baseEnv ["wave", "except"] 1 _ "except"
      (by decide) (Or.inl rfl) (by decide) rfl).1 rfl
  · exact (c10_except_guard baseEnv ["wave", "bob", "but"] 2 _ "but"
      (by decide) (Or.inr rfl) (by decide) rfl).2 (by decide)
